import Mathlib

/-!
Shallow embedding of the `fs.sshfs` adapter (`fs/sshfs/sshfs.py`): the
metadata-normalization layer (`_make_info`, `_make_details_from_stat`,
`_make_access_from_stat`) and the operation sequencer (`openbin`, `makedir`,
`removedir`, `setinfo`, `_utime`, `_chown`), together with the construction-time
`look_for_keys` computation, the lazily-cached `platform` / `locale` accessors,
and the `_SSHFileWrapper.truncate` wrapper.

Remote state (existence, directory-ness, current owner of a path) and the
outcomes of remote shell commands are passed in as explicit parameters, since
the real code obtains them over the SSH session.  Raw SFTP calls are reified as
a `RawCall` trace so that theorems can speak about which raw calls an operation
issues and in which order.
-/

namespace Sshfs

/-- The interface-level error taxonomy (`fs.errors`) restricted to the members
the embedded operations can raise, plus the generic translated failure. -/
inductive FSError where
  | resourceNotFound
  | fileExists
  | fileExpected
  | directoryExpected
  | directoryExists
  | directoryNotEmpty
  | operationFailed
  deriving DecidableEq, Repr

/-- A Python-level exception that is not part of the filesystem taxonomy. -/
inductive PyExc where
  | attributeError
  deriving DecidableEq, Repr

/-- Raw SFTP primitives as issued through `self._sftp`.  `sftp_utime` carries
either an `(atime, mtime)` pair or `none` (Python `utime(path, None)`,
touch-to-now). -/
inductive RawCall where
  | sftp_open (path : String)
  | sftp_mkdir (path : String) (mode : Nat)
  | sftp_rmdir (path : String)
  | sftp_utime (path : String) (times : Option (Int × Int))
  | sftp_chown (path : String) (uid gid : Int)
  | sftp_chmod (path : String) (mode : Nat)
  deriving DecidableEq, Repr

/-- Modelled from the spec: the `Platform` enumeration of `fs/sshfs/enums.py`,
which is not part of the sources; the spec lists the variants
{Linux, Darwin, BSD, Windows, Unknown}. -/
inductive Platform where
  | Linux
  | Darwin
  | BSD
  | Windows
  | Unknown
  deriving DecidableEq, Repr

/-- Modelled from the spec: `Platform.Unix` membership (`fs/sshfs/enums.py` is
not in the sources); the Unix-like platforms are Linux, Darwin and BSD. -/
def Platform.isUnix : Platform → Bool
  | .Linux => true
  | .Darwin => true
  | .BSD => true
  | _ => false

/-- A Python value, as stored in the nested info dictionaries.  `pnone` is
Python `None`; `pperm` stands for a permissions object carrying mode bits. -/
inductive PyVal where
  | pnone
  | pint (i : Int)
  | pstr (s : String)
  | pbool (b : Bool)
  | plist (l : List String)
  | pperm (mode : Nat)
  deriving DecidableEq, Repr

/-- A Python dictionary with string keys, as an association list. -/
abbrev PyDict := List (String × PyVal)

/-- Python dictionary assignment `d[k] = v`: replaces the binding of `k` if one
exists, otherwise appends it (insertion order is preserved, as in CPython). -/
def assocSet {α : Type} : List (String × α) → String → α → List (String × α)
  | [], k, v => [(k, v)]
  | (k', v') :: rest, k, v =>
      if k' = k then (k, v) :: rest else (k', v') :: assocSet rest k v

/-- Python dictionary lookup `d.get(k)` (as an `Option`). -/
def assocGet {α : Type} : List (String × α) → String → Option α
  | [], _ => none
  | (k', v') :: rest, k => if k' = k then some v' else assocGet rest k

/-- Python `k in d`. -/
def hasKey {α : Type} (d : List (String × α)) (k : String) : Bool :=
  (assocGet d k).isSome

/-- `d.get(k)` with Python `None` default. -/
def pyGet (d : PyDict) (k : String) : PyVal :=
  (assocGet d k).getD .pnone

/-- Coerces a dictionary value into an optional integer: `None` (or an absent
key materialized as `pnone`) gives `none`. -/
def valToOptInt : PyVal → Option Int
  | .pint i => some i
  | _ => none

/-- Mode bits of a `Permissions` value stored in an access dictionary
(`access['permissions'].mode`); non-permission values give 0. -/
def permMode : PyVal → Nat
  | .pperm m => m
  | _ => 0

/-- A remote `lstat` result.  `st_ctime` and `st_birthtime` are optional
because the code reads them with `getattr(stat_result, _, None)`. -/
structure StatResult where
  st_mode : Nat
  st_size : Int
  st_atime : Int
  st_mtime : Int
  st_uid : Int
  st_gid : Int
  st_ctime : Option Int
  st_birthtime : Option Int
  deriving DecidableEq, Repr

/-- `stat.S_ISDIR`: the file-type bits of the mode equal `S_IFDIR`. -/
def S_ISDIR (mode : Nat) : Bool :=
  mode &&& 0o170000 == 0o040000

/-- Embeds the external classifier `OSFS._get_type_from_stat` composed with
`int(...)`: maps the `S_IFMT` file-type bits to the numeric `ResourceType`
code (unknown 0, directory 1, file 2, character 3, block_special_file 4,
fifo 5, socket 6, symlink 7). -/
def get_type_from_stat (st : StatResult) : Int :=
  let t := st.st_mode &&& 0o170000
  if t = 0o040000 then 1
  else if t = 0o020000 then 3
  else if t = 0o060000 then 4
  else if t = 0o100000 then 2
  else if t = 0o010000 then 5
  else if t = 0o120000 then 7
  else if t = 0o140000 then 6
  else 0

/-- Injects an optional integer back into a Python value (`None` for `none`),
as `getattr(stat_result, key, None)` produces. -/
def optToVal : Option Int → PyVal
  | none => .pnone
  | some i => .pint i

/-- Embeds `SSHFS._make_details_from_stat`: the literal dictionary, then the
`created` assignment from `st_birthtime`, then the ctime assignment under a
platform-dependent key (`created` when the platform is Windows,
`metadata_changed` otherwise). -/
def make_details_from_stat (platform : Platform) (stat_result : StatResult) : PyDict :=
  let details : PyDict :=
    [("_write", .plist ["accessed", "modified"]),
     ("accessed", .pint stat_result.st_atime),
     ("modified", .pint stat_result.st_mtime),
     ("size", .pint stat_result.st_size),
     ("type", .pint (get_type_from_stat stat_result))]
  let details := assocSet details "created" (optToVal stat_result.st_birthtime)
  let ctime_key := if platform = Platform.Windows then "created" else "metadata_changed"
  assocSet details ctime_key (optToVal stat_result.st_ctime)

/-- Embeds `SSHFS._make_access_from_stat`.  The best-effort remote name
lookups (`getent` over the session, decoded with the locale) are abstracted by
the `groupName` / `userName` parameters: `none` when the lookup failed with an
`AttributeError` (silently skipped by the code), `some` when it produced a
decoded name.  On non-Unix platforms no lookup is attempted at all. -/
def make_access_from_stat (platform : Platform) (st : StatResult)
    (groupName userName : Option String) : PyDict :=
  let access : PyDict :=
    [("permissions", .pperm st.st_mode),
     ("gid", .pint st.st_gid),
     ("uid", .pint st.st_uid)]
  if platform.isUnix then
    let access :=
      match groupName with
      | some n => assocSet access "group" (.pstr n)
      | none => access
    match userName with
    | some n => assocSet access "user" (.pstr n)
    | none => access
  else access

/-- Embeds the `stat` namespace of `_make_info`: the passthrough of every
`st_`-prefixed attribute of the stat result (the optional attributes appear
only when present on the object). -/
def make_stat_ns (st : StatResult) : PyDict :=
  [("st_mode", .pint st.st_mode),
   ("st_size", .pint st.st_size),
   ("st_atime", .pint st.st_atime),
   ("st_mtime", .pint st.st_mtime),
   ("st_uid", .pint st.st_uid),
   ("st_gid", .pint st.st_gid)]
  ++ (match st.st_ctime with | some c => [("st_ctime", .pint c)] | none => [])
  ++ (match st.st_birthtime with | some b => [("st_birthtime", .pint b)] | none => [])

/-- Embeds `SSHFS._make_info`: the info dictionary starts with the `basic`
namespace and each of `details`, `stat`, `access` is assigned exactly when its
name occurs in the requested namespaces. -/
def make_info (platform : Platform) (groupName userName : Option String)
    (name : String) (stat_result : StatResult) (namespaces : List String) :
    List (String × PyDict) :=
  let info : List (String × PyDict) :=
    [("basic", [("name", .pstr name), ("is_dir", .pbool (S_ISDIR stat_result.st_mode))])]
  let info :=
    if "details" ∈ namespaces then
      assocSet info "details" (make_details_from_stat platform stat_result)
    else info
  let info :=
    if "stat" ∈ namespaces then assocSet info "stat" (make_stat_ns stat_result)
    else info
  if "access" ∈ namespaces then
    assocSet info "access" (make_access_from_stat platform stat_result groupName userName)
  else info

/-- The parsed open mode (`fs.mode.Mode`), restricted to the flags `openbin`
consults. -/
structure Mode where
  reading : Bool
  create : Bool
  exclusive : Bool
  deriving DecidableEq, Repr

/-- The remote filesystem as observed through the probe methods `openbin`,
`makedir` and `setinfo` use: existence and directory-ness of a path, and the
current owner as reported by `getinfo` in the `access` namespace. -/
structure FSView where
  exists' : String → Bool
  isdir : String → Bool
  curUid : String → Int
  curGid : String → Int

/-- Embeds the precondition chain of `SSHFS.openbin`: exclusive-on-existing,
then read-without-create-on-absent, then directory check, then the raw open. -/
def openbin (fs : FSView) (path : String) (mode : Mode) : Except FSError RawCall :=
  if mode.exclusive && fs.exists' path then .error .fileExists
  else if mode.reading && !mode.create && !fs.exists' path then .error .resourceNotFound
  else if fs.isdir path then .error .fileExpected
  else .ok (.sftp_open path)

/-- Embeds `SSHFS.makedir`: when `getinfo` raises `ResourceNotFound` the raw
`mkdir` is issued; otherwise the info is inspected, and
`(info.is_dir and not recreate) or info.is_file` raises `DirectoryExists`
(`Info.is_file` of the external base library is the negation of the basic
`is_dir` bit).  The returned list is the trace of raw calls issued. -/
def makedir (fs : FSView) (path : String) (permissions : Nat) (recreate : Bool) :
    Except FSError (List RawCall) :=
  if fs.exists' path = false then .ok [.sftp_mkdir path permissions]
  else
    let is_dir := fs.isdir path
    let is_file := !is_dir
    if (is_dir && !recreate) || is_file then .error .directoryExists
    else .ok []

/-- Embeds `SSHFS.removedir`: the `isempty` probe (a base-library call that
enumerates the directory) runs first, and only when it reports the directory
empty is the raw `rmdir` issued.  The first component is the raised error if
any; the second is the trace of raw calls issued. -/
def removedir (isempty : Bool) (path : String) : Option FSError × List RawCall :=
  if !isempty then (some .directoryNotEmpty, [])
  else (none, [.sftp_rmdir path])

/-- Embeds `SSHFS._utime`: when at least one of the two timestamps is given,
each defaults to the other and `utime(path, (accessed, modified))` is issued;
with neither given, `utime(path, None)` is issued. -/
def utime_call (path : String) (modified accessed : Option Int) : RawCall :=
  match accessed, modified with
  | some a, some m => .sftp_utime path (some (a, m))
  | some a, none => .sftp_utime path (some (a, a))
  | none, some m => .sftp_utime path (some (m, m))
  | none, none => .sftp_utime path none

/-- Python truthiness default `x or d` on an optional integer: `None` and `0`
are falsy and give the default. -/
def pyOrInt (v : Option Int) (d : Int) : Int :=
  match v with
  | none => d
  | some i => if i = 0 then d else i

/-- Embeds `SSHFS._chown`: when either argument is `None` the current owner is
fetched from the server and each argument is defaulted with Python `or`
truthiness; when both are given they are forwarded as-is. -/
def chown_args (curUid curGid : Int) (uid gid : Option Int) : Int × Int :=
  if uid.isNone || gid.isNone then
    (pyOrInt uid curUid, pyOrInt gid curGid)
  else
    (uid.getD 0, gid.getD 0)

/-- The `setinfo` request: the `details` and `access` sub-dictionaries of the
raw info dict (`info.get('details', {})` / `info.get('access', {})`). -/
structure InfoArg where
  details : PyDict
  access : PyDict
  deriving DecidableEq, Repr

/-- Which raw metadata calls fail on the server, so that theorems can speak
about a failure partway through `setinfo`. -/
structure SFTPBehavior where
  utimeFails : Bool
  chownFails : Bool
  chmodFails : Bool
  deriving DecidableEq, Repr

/-- The all-successful server behavior. -/
def noFail : SFTPBehavior := ⟨false, false, false⟩

/-- Embeds `SSHFS.setinfo`: the existence precondition, then the three
independent stages in source order — timestamps, ownership, permissions.  The
first component is the raised error if any (a failing raw call is translated
to the generic failure and stops the sequence); the second component is the
trace of raw calls that were issued and took effect. -/
def setinfo (fs : FSView) (beh : SFTPBehavior) (path : String) (info : InfoArg) :
    Option FSError × List RawCall :=
  if fs.exists' path = false then (some .resourceNotFound, [])
  else
    let stage1 : List RawCall :=
      if hasKey info.details "accessed" || hasKey info.details "modified" then
        [utime_call path (valToOptInt (pyGet info.details "modified"))
          (valToOptInt (pyGet info.details "accessed"))]
      else []
    if stage1 ≠ [] ∧ beh.utimeFails then (some .operationFailed, [])
    else
      let stage2 : List RawCall :=
        if hasKey info.access "uid" || hasKey info.access "gid" then
          let args := chown_args (fs.curUid path) (fs.curGid path)
            (valToOptInt (pyGet info.access "uid")) (valToOptInt (pyGet info.access "gid"))
          [.sftp_chown path args.1 args.2]
        else []
      if stage2 ≠ [] ∧ beh.chownFails then (some .operationFailed, stage1)
      else
        let stage3 : List RawCall :=
          if hasKey info.access "permissions" then
            [.sftp_chmod path (permMode (pyGet info.access "permissions"))]
          else []
        if stage3 ≠ [] ∧ beh.chmodFails then (some .operationFailed, stage1 ++ stage2)
        else (none, stage1 ++ stage2 ++ stage3)

/-- Embeds the `look_for_keys` argument of `client.connect` in
`SSHFS.__init__`: `True if pkey is None else False`. -/
def look_for_keys_arg (pkey : Option String) : Bool :=
  pkey.isNone

/-- The lazily-cached attribute slots of an `SSHFS` instance.  The outer
`Option` distinguishes an attribute that was never assigned (reading it raises
`AttributeError`) from one holding Python `None` (the uninitialized sentinel
the properties test for). -/
structure ConnAttrs where
  platform_attr : Option (Option Platform)
  locale_attr : Option (Option String)
  deriving DecidableEq, Repr

/-- The attribute state right after `SSHFS.__init__`: `self._platform = None`
is executed, and no assignment to `self._locale` is. -/
def initAttrs : ConnAttrs :=
  { platform_attr := some none, locale_attr := none }

/-- Embeds the `platform` property: read `self._platform` (raising
`AttributeError` if the attribute is missing); when it is `None`, run the
guess, whose result `guessed` is a parameter. -/
def platform_prop (s : ConnAttrs) (guessed : Platform) : Except PyExc Platform :=
  match s.platform_attr with
  | none => .error .attributeError
  | some none => .ok guessed
  | some (some p) => .ok p

/-- Embeds the `locale` property: read `self._locale` (raising
`AttributeError` if the attribute is missing); when it is `None`, run the
guess, whose result `guessed` is a parameter. -/
def locale_prop (s : ConnAttrs) (guessed : Option String) : Except PyExc (Option String) :=
  match s.locale_attr with
  | none => .error .attributeError
  | some none => .ok guessed
  | some (some l) => .ok (some l)

/-- Python `bytes.endswith`, on the character lists of the two strings. -/
def strEndsWith (s tail : String) : Bool :=
  s.data.reverse.take tail.data.length == tail.data.reverse

/-- Embeds `SSHFS._guess_platform` over the trimmed outputs of the two remote
probes (`none` when the command produced stderr output): a nonempty `sysinfo`
answer means Windows, otherwise `uname -s` output is matched, and every other
case degrades to `Unknown`. -/
def guess_platform (uname_sys sysinfo : Option String) : Platform :=
  match sysinfo with
  | some s =>
      if s ≠ "" then Platform.Windows
      else guess_platform_uname uname_sys
  | none => guess_platform_uname uname_sys
where
  /-- The `uname -s` arm of `_guess_platform`. -/
  guess_platform_uname : Option String → Platform
    | some u =>
        if strEndsWith u "BSD" || u = "DragonFly" then Platform.BSD
        else if u = "Darwin" then Platform.Darwin
        else if u = "Linux" then Platform.Linux
        else Platform.Unknown
    | none => Platform.Unknown

/-- Embeds `_SSHFileWrapper.truncate`: `size = size or self._f.tell()`
forwarded to the raw truncate; the result is the size actually forwarded,
given the current file position `tell`. -/
def SSHFileWrapper.truncate (size : Option Int) (tell : Int) : Int :=
  match size with
  | none => tell
  | some s => if s = 0 then tell else s

/-- A concrete view in which every path exists and is a directory, with the
current owner reported as uid 100, gid 200. -/
def viewDir : FSView :=
  ⟨fun _ => true, fun _ => true, fun _ => 100, fun _ => 200⟩

/-- A concrete view in which every path exists and is a regular file, with the
current owner reported as uid 100, gid 200. -/
def viewFile : FSView :=
  ⟨fun _ => true, fun _ => false, fun _ => 100, fun _ => 200⟩

/-- A concrete view in which no path exists. -/
def viewAbsent : FSView :=
  ⟨fun _ => false, fun _ => false, fun _ => 100, fun _ => 200⟩

/-- A concrete stat result on which a birth time (5) and a ctime (7) are both
exposed. -/
def statBirthCtime : StatResult :=
  ⟨0o100644, 10, 1, 2, 1000, 1000, some 7, some 5⟩

/-- C1: before the raw SFTP open, `openbin` fails with `FileExists` when the
mode is exclusive and the target exists, with `ResourceNotFound` when the mode
reads without creating and the target is absent, and with `FileExpected` when
the target is an existing directory, the three checks being applied in that
order (the directory check fires only when the two earlier checks do not). -/
theorem C1_openbin_precondition_order (fs : FSView) (path : String) (mode : Mode) :
    (mode.exclusive = true → fs.exists' path = true →
      openbin fs path mode = .error .fileExists)
    ∧ (mode.reading = true → mode.create = false → fs.exists' path = false →
      openbin fs path mode = .error .resourceNotFound)
    ∧ (fs.isdir path = true →
      ¬(mode.exclusive = true ∧ fs.exists' path = true) →
      ¬(mode.reading = true ∧ mode.create = false ∧ fs.exists' path = false) →
      openbin fs path mode = .error .fileExpected) := by
  refine ⟨?_, ?_, ?_⟩
  · intro h1 h2
    simp [openbin, h1, h2]
  · intro h1 h2 h3
    simp [openbin, h1, h2, h3]
  · intro hd h1 h2
    have e1 : (mode.exclusive && fs.exists' path) = false := by
      cases hx : mode.exclusive <;> cases hy : fs.exists' path <;> simp_all
    have e2 : (mode.reading && !mode.create && !fs.exists' path) = false := by
      cases hx : mode.reading <;> cases hy : mode.create <;>
        cases hz : fs.exists' path <;> simp_all
    simp [openbin, e1, e2, hd]

/-- Witness for C1: opening in exclusive mode on a view where the target
exists (as a file) fails with `FileExists`. -/
theorem C1_openbin_precondition_order_witness :
    openbin viewFile "f" ⟨false, false, true⟩ = .error .fileExists :=
  (C1_openbin_precondition_order viewFile "f" ⟨false, false, true⟩).1 rfl rfl

/-- C2: `setinfo` on an absent path fails with `ResourceNotFound` before any
raw call; on an existing path the requested changes are applied in source
order — timestamps (each of accessed/modified defaulting to the other when
only one is given), then ownership (a missing gid is resolved from the
server's current value and both are applied in one chown), then permissions —
and a failure in the ownership stage leaves the already-applied timestamp
change in place. -/
theorem C2_setinfo_sequencing (fs : FSView) (beh : SFTPBehavior) (path : String)
    (info : InfoArg) (a m u g : Int) (pm : Nat) :
    (fs.exists' path = false → setinfo fs beh path info = (some .resourceNotFound, []))
    ∧ (fs.exists' path = true →
        setinfo fs noFail path ⟨[("accessed", .pint a)], []⟩
          = (none, [.sftp_utime path (some (a, a))]))
    ∧ (fs.exists' path = true →
        setinfo fs noFail path ⟨[("modified", .pint m)], []⟩
          = (none, [.sftp_utime path (some (m, m))]))
    ∧ (fs.exists' path = true → u ≠ 0 →
        setinfo fs noFail path ⟨[], [("uid", .pint u)]⟩
          = (none, [.sftp_chown path u (fs.curGid path)]))
    ∧ (fs.exists' path = true →
        setinfo fs noFail path
            ⟨[("accessed", .pint a), ("modified", .pint m)],
             [("uid", .pint u), ("gid", .pint g), ("permissions", .pperm pm)]⟩
          = (none, [.sftp_utime path (some (a, m)), .sftp_chown path u g,
                    .sftp_chmod path pm]))
    ∧ (fs.exists' path = true →
        setinfo fs ⟨false, true, false⟩ path
            ⟨[("accessed", .pint a)], [("uid", .pint u), ("gid", .pint g)]⟩
          = (some .operationFailed, [.sftp_utime path (some (a, a))])) := by
  refine ⟨?_, ?_, ?_, ?_, ?_, ?_⟩
  · intro h
    simp [setinfo, h]
  · intro h
    simp [setinfo, h, noFail, hasKey, assocGet, pyGet, valToOptInt, utime_call]
  · intro h
    simp [setinfo, h, noFail, hasKey, assocGet, pyGet, valToOptInt, utime_call]
  · intro h hu
    simp [setinfo, h, noFail, hasKey, assocGet, pyGet, valToOptInt,
      chown_args, pyOrInt, hu]
  · intro h
    simp [setinfo, h, noFail, hasKey, assocGet, pyGet, valToOptInt, utime_call,
      chown_args, pyOrInt, permMode]
  · intro h
    simp [setinfo, h, hasKey, assocGet, pyGet, valToOptInt, utime_call]

/-- Witness for C2: on a view where the path exists, a timestamp-only request
issues the defaulted utime, and a request whose ownership stage fails still
leaves the timestamp call applied. -/
theorem C2_setinfo_sequencing_witness :
    setinfo viewFile noFail "f" ⟨[("accessed", .pint 1)], []⟩
        = (none, [.sftp_utime "f" (some (1, 1))])
    ∧ setinfo viewFile ⟨false, true, false⟩ "f"
          ⟨[("accessed", .pint 1)], [("uid", .pint 3), ("gid", .pint 4)]⟩
        = (some .operationFailed, [.sftp_utime "f" (some (1, 1))]) :=
  ⟨(C2_setinfo_sequencing viewFile noFail "f" ⟨[], []⟩ 1 2 3 4 420).2.1 rfl,
   (C2_setinfo_sequencing viewFile noFail "f" ⟨[], []⟩ 1 2 3 4 420).2.2.2.2.2 rfl⟩

/-- C3 counterexample: `makedir` on a path occupied by a regular file (even
with the recreate flag set) fails with `DirectoryExists`, not with a distinct
`FileExpected`-style conflict error as the claim states. -/
theorem C3_makedir_file_counterexample :
    makedir viewFile "f" 493 true = .error .directoryExists
    ∧ (Except.error FSError.directoryExists
        ≠ (Except.error FSError.fileExpected : Except FSError (List RawCall))) := by
  constructor
  · rfl
  · simp

/-- C3 amended: on an existing path, `makedir` succeeds exactly when the path
is a directory and the recreate flag is set, and in every other case — a
directory without recreate, or a non-directory occupying the path — it fails
with the same error, `DirectoryExists`. -/
theorem C3_makedir_existing_spec (fs : FSView) (path : String) (perms : Nat)
    (recreate : Bool) (hex : fs.exists' path = true) :
    (makedir fs path perms recreate = .ok [] ↔
      (fs.isdir path = true ∧ recreate = true))
    ∧ (¬(fs.isdir path = true ∧ recreate = true) →
        makedir fs path perms recreate = .error .directoryExists) := by
  cases hd : fs.isdir path <;> cases hr : recreate <;>
    simp [makedir, hex, hd, hr]

/-- Witness for C3: recreating an existing directory succeeds without issuing
any raw call. -/
theorem C3_makedir_existing_spec_witness :
    makedir viewDir "d" 493 true = .ok [] :=
  (C3_makedir_existing_spec viewDir "d" 493 true rfl).1.2 ⟨rfl, rfl⟩

/-- C4: for every requested namespace set, the info record built by
`_make_info` contains the `basic` namespace plus exactly the explicitly
requested namespaces among `details`, `stat` and `access` — a key is present
in the record if and only if it is `basic` or it is one of these three names
and was requested — so `basic` is present even for an empty request. -/
theorem C4_make_info_namespaces (platform : Platform) (gN uN : Option String)
    (name : String) (st : StatResult) (namespaces : List String) (k : String) :
    (assocGet (make_info platform gN uN name st namespaces) k).isSome = true
      ↔ (k = "basic" ∨
          (k ∈ namespaces ∧ (k = "details" ∨ k = "stat" ∨ k = "access"))) := by
  by_cases h1 : "details" ∈ namespaces <;> by_cases h2 : "stat" ∈ namespaces <;>
    by_cases h3 : "access" ∈ namespaces <;>
    by_cases k1 : k = "basic" <;> by_cases k2 : k = "details" <;>
    by_cases k3 : k = "stat" <;> by_cases k4 : k = "access" <;>
    simp_all [make_info, assocSet, assocGet, eq_comm]

/-- C5 counterexample: on a Windows platform with a stat result exposing a
birth time (5) and a ctime (7), `_make_details_from_stat` stores the ctime —
not the birth time — under `created`, and leaves no `metadata_changed` key, so
the ctime is not placed under `created` "only on hosts lacking a birthtime". -/
theorem C5_details_windows_birthtime_counterexample :
    statBirthCtime.st_birthtime = some 5
    ∧ assocGet (make_details_from_stat Platform.Windows statBirthCtime) "created"
        = some (PyVal.pint 7)
    ∧ assocGet (make_details_from_stat Platform.Windows statBirthCtime)
        "metadata_changed" = none := by
  refine ⟨rfl, ?_, ?_⟩ <;>
    simp [make_details_from_stat, statBirthCtime, assocSet, assocGet, optToVal]

/-- C5 amended: in the `details` dictionary, on every non-Windows platform
`created` holds the birth time (Python `None` when the stat result lacks one)
and `metadata_changed` holds the ctime; on Windows the ctime is stored under
`created` unconditionally — overwriting any birth-time value — and no
`metadata_changed` key is produced. -/
theorem C5_details_ctime_key_spec (pf : Platform) (st : StatResult) :
    (pf ≠ Platform.Windows →
      assocGet (make_details_from_stat pf st) "created"
          = some (optToVal st.st_birthtime)
      ∧ assocGet (make_details_from_stat pf st) "metadata_changed"
          = some (optToVal st.st_ctime))
    ∧ (pf = Platform.Windows →
      assocGet (make_details_from_stat pf st) "created"
          = some (optToVal st.st_ctime)
      ∧ assocGet (make_details_from_stat pf st) "metadata_changed" = none) := by
  constructor
  · intro h
    constructor <;> simp [make_details_from_stat, h, assocSet, assocGet]
  · intro h
    subst h
    constructor <;> simp [make_details_from_stat, assocSet, assocGet]

/-- Witness for C5 amended: on Linux with the concrete stat result, `created`
holds the birth time 5 and `metadata_changed` the ctime 7. -/
theorem C5_details_ctime_key_spec_witness :
    assocGet (make_details_from_stat Platform.Linux statBirthCtime) "created"
        = some (PyVal.pint 5)
    ∧ assocGet (make_details_from_stat Platform.Linux statBirthCtime)
        "metadata_changed" = some (PyVal.pint 7) :=
  (C5_details_ctime_key_spec Platform.Linux statBirthCtime).1 (by simp)

/-- C6: evaluating the lazily-cached accessors on the attribute state left by
`__init__` — which assigns `self._platform = None` but never assigns
`self._locale` — shows that the `locale` property raises `AttributeError`
instead of degrading to an undetermined locale, while the `platform` property
returns the guessed value without raising and platform detection degrades to
`Unknown` when both remote probes fail. -/
theorem C6_locale_attribute_error (g : Option String) (p : Platform) :
    locale_prop initAttrs g = .error .attributeError
    ∧ platform_prop initAttrs p = .ok p
    ∧ guess_platform none none = Platform.Unknown :=
  ⟨rfl, rfl, rfl⟩

/-- C7: `removedir` on a directory whose emptiness probe reports it non-empty
fails with `DirectoryNotEmpty` and issues no raw call at all — in particular
the raw `rmdir` is never invoked. -/
theorem C7_removedir_nonempty (path : String) (isempty : Bool)
    (h : isempty = false) :
    removedir isempty path = (some FSError.directoryNotEmpty, []) := by
  subst h; rfl

/-- Witness for C7: removing a concrete non-empty directory fails with
`DirectoryNotEmpty` and an empty raw-call trace. -/
theorem C7_removedir_nonempty_witness :
    removedir false "d" = (some FSError.directoryNotEmpty, []) :=
  C7_removedir_nonempty "d" false rfl

/-- C8: evaluating the `look_for_keys` argument computed by `__init__` —
`True if pkey is None else False` — shows that it is auto-enabled when no
private key is given, but that supplying a private key unconditionally
disables it (there is no way to keep it enabled), contradicting the
repository's own test, which asserts that `connect` receives
`look_for_keys=True` when a pkey is supplied without an explicit setting. -/
theorem C8_look_for_keys_disabled_by_pkey :
    look_for_keys_arg none = true
    ∧ look_for_keys_arg (some "path-to-pkey") = false :=
  ⟨rfl, rfl⟩

/-- C9: the file wrapper's `truncate` maps a requested size of 0 — a falsy
value under the `size or tell()` default — to the current file position, so
`truncate(0)` forwards `tell()` to the raw truncate, behaves identically to
`truncate(None)`, and does not truncate the file to length 0. -/
theorem C9_truncate_zero_uses_tell (tell : Int) :
    SSHFileWrapper.truncate (some 0) tell = tell
    ∧ SSHFileWrapper.truncate (some 0) tell = SSHFileWrapper.truncate none tell :=
  ⟨rfl, rfl⟩

/-- C10 counterexample: `setinfo` on an existing path with both `uid = 0` and
`gid = 5` supplied issues `chown("f", 0, 5)` — the zero uid is forwarded
verbatim even though the server reports the current owner as uid 100 — so a
supplied value 0 is not always replaced by the current value, and ownership
can be set to uid 0 through `setinfo`. -/
theorem C10_chown_zero_counterexample :
    viewFile.curUid "f" = 100
    ∧ setinfo viewFile noFail "f" ⟨[], [("uid", .pint 0), ("gid", .pint 5)]⟩
        = (none, [.sftp_chown "f" 0 5]) := by
  constructor
  · rfl
  · simp [setinfo, viewFile, noFail, hasKey, assocGet, pyGet, valToOptInt,
      chown_args, pyOrInt]

/-- C10 amended: a supplied uid or gid of 0 is replaced by the server's
current value only when the other field is absent — which triggers the
server fetch, whose Python `or` defaulting treats 0 as missing — while when
both uid and gid are supplied no fetch occurs and the values, including 0,
are forwarded to the raw chown unchanged. -/
theorem C10_chown_zero_semantics (curUid curGid u g : Int) :
    chown_args curUid curGid (some 0) none = (curUid, curGid)
    ∧ chown_args curUid curGid none (some 0) = (curUid, curGid)
    ∧ chown_args curUid curGid (some u) (some g) = (u, g) := by
  refine ⟨rfl, rfl, ?_⟩
  simp [chown_args]

end Sshfs
